import Mathlib

/-!
Shallow embedding of `src/papers.py` ("Computer-based immigration office for
Kanadia") and verification of its natural-language specification.

Python dynamic values reachable from the parsed JSON inputs are modelled by
`PyVal`; functions that can raise a Python exception return
`Except PyErr _`.  Each embedded definition carries the source function it
translates.
-/

/-- Python exception classes that the embedded code can raise. -/
inductive PyErr where
  | typeError
  | valueError
  | keyError
  | attributeError
deriving DecidableEq

mutual

/-- Fragment of Python values reachable from the JSON inputs of papers.py:
`None`, booleans, integers, strings and dicts (field lists keyed by strings;
JSON objects have unique keys).  No other value shapes occur in the data
these claims quantify over.  The dict fields form a mutually defined list
type so that all functions below are structurally recursive and compute
inside the kernel. -/
inductive PyVal where
  | none
  | bool (b : Bool)
  | int (n : Int)
  | str (s : String)
  | dict (d : PyFields)

inductive PyFields where
  | nil
  | cons (key : String) (val : PyVal) (rest : PyFields)

end

mutual

/-- Structural equality on `PyVal` (written by hand because the nested
inductive defeats the automatic derivation). -/
def PyVal.beq : PyVal → PyVal → Bool
  | .none, .none => true
  | .bool a, .bool b => a == b
  | .int a, .int b => a == b
  | .str a, .str b => a == b
  | .dict a, .dict b => PyFields.beq a b
  | _, _ => false

/-- Structural equality on dict fields. -/
def PyFields.beq : PyFields → PyFields → Bool
  | .nil, .nil => true
  | .cons k v a, .cons l w b => k == l && PyVal.beq v w && PyFields.beq a b
  | _, _ => false

end

mutual

theorem pyVal_beq_iff : ∀ a b : PyVal, PyVal.beq a b = true ↔ a = b
  | .none, .none => by simp [PyVal.beq]
  | .bool _, .bool _ => by simp [PyVal.beq]
  | .int _, .int _ => by simp [PyVal.beq]
  | .str _, .str _ => by simp [PyVal.beq]
  | .dict a, .dict b => by simp [PyVal.beq, pyFields_beq_iff a b]
  | .none, .bool _ => by simp [PyVal.beq]
  | .none, .int _ => by simp [PyVal.beq]
  | .none, .str _ => by simp [PyVal.beq]
  | .none, .dict _ => by simp [PyVal.beq]
  | .bool _, .none => by simp [PyVal.beq]
  | .bool _, .int _ => by simp [PyVal.beq]
  | .bool _, .str _ => by simp [PyVal.beq]
  | .bool _, .dict _ => by simp [PyVal.beq]
  | .int _, .none => by simp [PyVal.beq]
  | .int _, .bool _ => by simp [PyVal.beq]
  | .int _, .str _ => by simp [PyVal.beq]
  | .int _, .dict _ => by simp [PyVal.beq]
  | .str _, .none => by simp [PyVal.beq]
  | .str _, .bool _ => by simp [PyVal.beq]
  | .str _, .int _ => by simp [PyVal.beq]
  | .str _, .dict _ => by simp [PyVal.beq]
  | .dict _, .none => by simp [PyVal.beq]
  | .dict _, .bool _ => by simp [PyVal.beq]
  | .dict _, .int _ => by simp [PyVal.beq]
  | .dict _, .str _ => by simp [PyVal.beq]

theorem pyFields_beq_iff : ∀ a b : PyFields, PyFields.beq a b = true ↔ a = b
  | .nil, .nil => by simp [PyFields.beq]
  | .nil, .cons _ _ _ => by simp [PyFields.beq]
  | .cons _ _ _, .nil => by simp [PyFields.beq]
  | .cons k v a, .cons l w b => by
      simp [PyFields.beq, pyVal_beq_iff v w, pyFields_beq_iff a b, and_assoc]

end

instance : DecidableEq PyVal := fun a b =>
  decidable_of_iff _ (pyVal_beq_iff a b)

instance : DecidableEq PyFields := fun a b =>
  decidable_of_iff _ (pyFields_beq_iff a b)

instance {ε α : Type} [DecidableEq ε] [DecidableEq α] : DecidableEq (Except ε α) :=
  fun a b =>
    match a, b with
    | Except.error e, Except.error f =>
        decidable_of_iff (e = f) ⟨fun h => by rw [h], fun h => by injection h⟩
    | Except.ok x, Except.ok y =>
        decidable_of_iff (x = y) ⟨fun h => by rw [h], fun h => by injection h⟩
    | Except.error _, Except.ok _ => isFalse (fun h => Except.noConfusion h)
    | Except.ok _, Except.error _ => isFalse (fun h => Except.noConfusion h)

/-- Build a field list from a Lean association list (for writing dict
literals). -/
def fieldsOf : List (String × PyVal) → PyFields
  | [] => .nil
  | (k, v) :: rest => .cons k v (fieldsOf rest)

/-- First value stored under a key, as in a Python dict lookup (JSON objects
have unique keys, so the first binding is the binding). -/
def PyFields.lookup : PyFields → String → Option PyVal
  | .nil, _ => Option.none
  | .cons k v rest, key => if k = key then some v else rest.lookup key

/-- Numeric view used by Python `==`: `True`/`False` compare equal to the
integers 1/0. -/
def pyNum : PyVal → Option Int
  | .bool b => some (if b then 1 else 0)
  | .int n => some n
  | _ => Option.none

/-- Python `==` on the modelled values: numeric cross-type equality between
booleans and integers, structural equality otherwise (different types never
compare equal; none of the embedded comparisons compares containers holding
mixed numeric types, so the pointwise structural fallback is exact there). -/
def pyEq (a b : PyVal) : Bool :=
  match pyNum a, pyNum b with
  | some x, some y => Decidable.decide (x = y)
  | _, _ => Decidable.decide (a = b)

/-- Python `v[k]` for a string key `k`: a dict returns the value stored under
`k` (raising KeyError when absent); subscripting any other modelled value
with a string raises TypeError. -/
def pyGetItem (v : PyVal) (k : String) : Except PyErr PyVal :=
  match v with
  | .dict d =>
      match d.lookup k with
      | some w => Except.ok w
      | Option.none => Except.error PyErr.keyError
  | _ => Except.error PyErr.typeError

/-- Value stored under key `k`; only used where the embedded code has already
checked that the key is present. -/
def dGet (d : PyFields) (k : String) : PyVal :=
  (d.lookup k).getD PyVal.none

/-- Python `x in l` for a list `l` (membership by `==`). -/
def pyIn (x : PyVal) (l : List PyVal) : Bool :=
  l.any (fun y => pyEq x y)

/-! ### Dates: embedding of `valid_date_format` (papers.py lines 138-148)

`valid_date_format` calls `datetime.datetime.strptime(date_string, "%Y-%m-%d")`
and converts ValueError to `False`.  CPython's `_strptime` compiles the format
to a regex in which `%Y` is exactly four digits and `%m`/`%d` are the
alternations `1[0-2]|0[1-9]|[1-9]` and `3[01]|[12]\d|0[1-9]|[1-9]`, requires
the regex to consume the whole string, and then builds a `datetime`, which
raises ValueError for a day that does not exist in the month or a year
outside 1..9999. -/

/-- Numeric value of a decimal digit character. -/
def digitVal (c : Char) : Nat := c.toNat - 48

/-- One-or-two-digit month field of strptime, mirroring the regex alternation
`1[0-2]|0[1-9]|[1-9]` (longest alternative first). -/
def parseMonth : List Char → Option (Nat × List Char)
  | [] => Option.none
  | [c] => if '1' ≤ c ∧ c ≤ '9' then some (digitVal c, []) else Option.none
  | c1 :: c2 :: rest =>
      if c1 = '1' ∧ '0' ≤ c2 ∧ c2 ≤ '2' then some (10 + digitVal c2, rest)
      else if c1 = '0' ∧ '1' ≤ c2 ∧ c2 ≤ '9' then some (digitVal c2, rest)
      else if '1' ≤ c1 ∧ c1 ≤ '9' then some (digitVal c1, c2 :: rest)
      else Option.none

/-- One-or-two-digit day field of strptime, mirroring the regex alternation
`3[01]|[12]\d|0[1-9]|[1-9]`. -/
def parseDay : List Char → Option (Nat × List Char)
  | [] => Option.none
  | [c] => if '1' ≤ c ∧ c ≤ '9' then some (digitVal c, []) else Option.none
  | c1 :: c2 :: rest =>
      if c1 = '3' ∧ (c2 = '0' ∨ c2 = '1') then some (30 + digitVal c2, rest)
      else if (c1 = '1' ∨ c1 = '2') ∧ c2.isDigit then
        some (10 * digitVal c1 + digitVal c2, rest)
      else if c1 = '0' ∧ '1' ≤ c2 ∧ c2 ≤ '9' then some (digitVal c2, rest)
      else if '1' ≤ c1 ∧ c1 ≤ '9' then some (digitVal c1, c2 :: rest)
      else Option.none

/-- The `%Y-%m-%d` strptime pattern: four year digits, a hyphen, a month
field, a hyphen, a day field, and nothing left over. -/
def strptime_Ymd (l : List Char) : Option (Nat × Nat × Nat) :=
  match l with
  | y1 :: y2 :: y3 :: y4 :: '-' :: rest =>
      if y1.isDigit ∧ y2.isDigit ∧ y3.isDigit ∧ y4.isDigit then
        match parseMonth rest with
        | some (m, '-' :: rest2) =>
            match parseDay rest2 with
            | some (d, []) =>
                some (1000 * digitVal y1 + 100 * digitVal y2 +
                      10 * digitVal y3 + digitVal y4, m, d)
            | _ => Option.none
        | _ => Option.none
      else Option.none
  | _ => Option.none

/-- Proleptic-Gregorian leap year, as in Python's `datetime`. -/
def isLeap (y : Nat) : Bool :=
  y % 4 = 0 ∧ (y % 100 ≠ 0 ∨ y % 400 = 0)

/-- Length of a month, as in Python's `datetime`. -/
def daysInMonth (y m : Nat) : Nat :=
  if m = 2 then (if isLeap y then 29 else 28)
  else if m = 4 ∨ m = 6 ∨ m = 9 ∨ m = 11 then 30
  else 31

/-- `strptime(s, "%Y-%m-%d")` succeeds: the pattern matches the whole string
and the resulting calendar date exists (year at least 1, day within the
month). -/
def strptime_valid (s : String) : Bool :=
  match strptime_Ymd s.data with
  | some (y, m, d) => 1 ≤ y ∧ d ≤ daysInMonth y m
  | Option.none => false

/-- Embeds `valid_date_format` (papers.py lines 138-148): ValueError from
`strptime` is caught and turned into `False`, but calling `strptime` on a
non-string raises TypeError, which the `except ValueError` clause does not
catch. -/
def valid_date_format : PyVal → Except PyErr Bool
  | .str s => Except.ok (strptime_valid s)
  | _ => Except.error PyErr.typeError

/-! ### Passport format: embedding of `valid_passport_format` (lines 94-105)

The compiled pattern is `^\w{5}-\w{5}-\w{5}-\w{5}-\w{5}$`.  Python's `\w`
matches word characters: alphanumerics and the underscore (the non-ASCII
letters `\w` also accepts play no role in these claims, which only separate
the underscore from the alphanumerics).  Python's `$` accepts the end of the
string or a single newline directly before the end. -/

/-- Python regex `\w` on the ASCII range: a letter, a digit, or `_`. -/
def pyWordChar (c : Char) : Bool := c.isAlphanum || c = '_'

/-- Consume `\w{5}`: five word characters, returning the rest of the input. -/
def takeWord5 (l : List Char) : Option (List Char) :=
  if 5 ≤ l.length ∧ (l.take 5).all pyWordChar = true then some (l.drop 5)
  else Option.none

/-- Consume `-\w{5}`. -/
def takeDashWord5 : List Char → Option (List Char)
  | [] => Option.none
  | c :: rest => if c = '-' then takeWord5 rest else Option.none

/-- Python's `$`: end of input, or a newline followed by the end. -/
def dollarEnd (l : List Char) : Bool :=
  Decidable.decide (l = [] ∨ l = [ '\n' ])

/-- The regex `^\w{5}-\w{5}-\w{5}-\w{5}-\w{5}$` run on a character list. -/
def passport_regex (l : List Char) : Bool :=
  match takeWord5 l with
  | Option.none => false
  | some r1 =>
    match takeDashWord5 r1 with
    | Option.none => false
    | some r2 =>
      match takeDashWord5 r2 with
      | Option.none => false
      | some r3 =>
        match takeDashWord5 r3 with
        | Option.none => false
        | some r4 =>
          match takeDashWord5 r4 with
          | Option.none => false
          | some r5 => dollarEnd r5

/-- Embeds `valid_passport_format` (papers.py lines 94-105) on strings:
`re.match` of the pattern above, with the `if`/`else` collapsing the match
object to a boolean. -/
def valid_passport_format (s : String) : Bool :=
  passport_regex s.data

/-- `valid_passport_format` as called on a record field: `re.match` raises
TypeError when handed a non-string. -/
def valid_passport_format_py : PyVal → Except PyErr Bool
  | .str s => Except.ok (valid_passport_format s)
  | _ => Except.error PyErr.typeError

/-! ### Visa dates: embedding of `valid_visa_date` (lines 121-134) -/

/-- Python slice `s[a:b]` for `0 ≤ a ≤ b`. -/
def pySlice (s : String) (a b : Nat) : String :=
  String.mk ((s.data.drop a).take (b - a))

/-- Embeds the constructor `datetime.date(y, m, d)`: integer arguments give a
date (ValueError outside the calendar ranges); any non-integer argument —
in particular the string slices `valid_visa_date` passes — raises
TypeError. -/
def datetime_date (y m d : PyVal) : Except PyErr (Nat × Nat × Nat) :=
  match y, m, d with
  | .int a, .int b, .int c =>
      if 1 ≤ a ∧ a ≤ 9999 ∧ 1 ≤ b ∧ b ≤ 12 ∧ 1 ≤ c ∧ c ≤ (daysInMonth a.toNat b.toNat : Int) then
        Except.ok (a.toNat, b.toNat, c.toNat)
      else Except.error PyErr.valueError
  | _, _, _ => Except.error PyErr.typeError

/-- Embeds `valid_visa_date` (papers.py lines 123-134).  After the format
check succeeds, line 129 calls `datetime.date` on the string slices
`visa["date"][0:4]`, `[5:7]`, `[8:10]`, which raises TypeError (and even if
a date were built, line 132 would subtract a `date` from a `datetime` and
compare the result with the integer 730 — both unsupported, also
TypeError). -/
def valid_visa_date (visa : PyVal) : Except PyErr Bool :=
  match pyGetItem visa "date" with
  | Except.error e => Except.error e
  | Except.ok dv =>
    match valid_date_format dv with
    | Except.error e => Except.error e
    | Except.ok false => Except.ok false
    | Except.ok true =>
      match dv with
      | .str s =>
          match datetime_date (.str (pySlice s 0 4)) (.str (pySlice s 5 7))
              (.str (pySlice s 8 10)) with
          | Except.error e => Except.error e
          | Except.ok _ => Except.error PyErr.typeError
      | _ => Except.error PyErr.typeError

/-! ### Record validator: embedding of `complete_record` (lines 151-176)

The checks run in source order with Python's `or` short-circuit: a missing
key returns `False` before the field is read, and `x is ''` on a field value
is modelled as structural equality with the empty string (CPython interns
the empty string, so identity and value equality agree on it; a non-string
value is never identical to `''`).  Calling the validator on a value with no
`keys` method raises AttributeError. -/
def complete_record (record : PyVal) : Except PyErr Bool :=
  match record with
  | .dict d =>
    if (d.lookup "first_name").isNone then Except.ok false
    else if dGet d "first_name" = .str "" then Except.ok false
    else if (d.lookup "last_name").isNone then Except.ok false
    else if dGet d "last_name" = .str "" then Except.ok false
    else if (d.lookup "birth_date").isNone then Except.ok false
    else
      match valid_date_format (dGet d "birth_date") with
      | Except.error e => Except.error e
      | Except.ok bd =>
        if bd = false then Except.ok false
        else if (d.lookup "passport").isNone then Except.ok false
        else
          match valid_passport_format_py (dGet d "passport") with
          | Except.error e => Except.error e
          | Except.ok pf =>
            if pf = false then Except.ok false
            else if (d.lookup "home").isNone then Except.ok false
            else if (d.lookup "from").isNone then Except.ok false
            else if (d.lookup "entry_reason").isNone then Except.ok false
            else if pyIn (dGet d "entry_reason")
                [ .str "visit", .str "transit", .str "returning" ] then Except.ok true
            else Except.ok false
  | _ => Except.error PyErr.attributeError

/-! ### Watchlist matcher: embedding of `on_watchlist` (lines 179-194)

Every path through the loop body returns, so only the first watchlist entry
is ever examined, and an empty watchlist falls off the end of the function,
returning Python `None` (modelled as `Option.none` in `Option Bool`). -/

/-- The conjunction on line 189, with Python's `and` short-circuit: the
`last_name` field is only read when the first names compare equal. -/
def watchlist_name_match (first_name last_name w : PyVal) : Except PyErr Bool :=
  match pyGetItem w "first_name" with
  | Except.error e => Except.error e
  | Except.ok wf =>
    if pyEq wf first_name then
      match pyGetItem w "last_name" with
      | Except.error e => Except.error e
      | Except.ok wl => Except.ok (pyEq wl last_name)
    else Except.ok false

/-- Embeds `on_watchlist` (papers.py lines 180-194). -/
def on_watchlist (first_name last_name passport : PyVal) :
    List PyVal → Except PyErr (Option Bool)
  | [] => Except.ok Option.none
  | w :: _ =>
    match watchlist_name_match first_name last_name w with
    | Except.error e => Except.error e
    | Except.ok true => Except.ok (some true)
    | Except.ok false =>
      match pyGetItem w "passport" with
      | Except.error e => Except.error e
      | Except.ok wp =>
          Except.ok (if pyEq wp passport then some true else some false)

/-! ### Visa requirement and medical advisory (lines 210-250) -/

/-- The loop of `visitor_visa_required`: each candidate is compared through
its `code` field. -/
def visitor_visa_scan (home_country : PyVal) : List PyVal → Except PyErr Bool
  | [] => Except.ok false
  | c :: rest =>
    match pyGetItem c "code" with
    | Except.error e => Except.error e
    | Except.ok code =>
        if pyEq home_country code then Except.ok true
        else visitor_visa_scan home_country rest

/-- Embeds `visitor_visa_required` (papers.py lines 211-222). -/
def visitor_visa_required (reason_for_entry home_country : PyVal)
    (visitor_visa_list : List PyVal) : Except PyErr Bool :=
  if pyEq reason_for_entry (.str "visit") then
    visitor_visa_scan home_country visitor_visa_list
  else Except.ok false

/-- Embeds `transit_visa_required` (papers.py lines 226-237).  Unlike its
visitor sibling, line 235 compares the country-code string with the whole
country value taken from the list, not with its `code` field. -/
def transit_visa_required (reason_for_entry home_country : PyVal)
    (transit_visa_list : List PyVal) : Bool :=
  if pyEq reason_for_entry (.str "transit") then
    transit_visa_list.any (fun c => pyEq home_country c)
  else false

/-- Embeds `has_medical_advisory` (papers.py lines 240-250).  Line 248
compares each of the two country-code strings with the whole element of
`medical_advisories`. -/
def has_medical_advisory (home_country from_country : PyVal)
    (medical_advisories : List PyVal) : Bool :=
  medical_advisories.any (fun c => pyEq home_country c || pyEq from_country c)

/-! ### The decision pipeline: embedding of `decide` (lines 19-91)

`decide` is embedded from line 41 on, after the `json.loads` boundary of
lines 33-39: its arguments are the three parsed JSON arrays.  The spec
treats parsing as an external collaborator, and each input source is an
ordered sequence of objects. -/

/-- The country-attribute indexer, lines 41-54 of `decide`: the loop appends
the entire country object (not its code) to each list it selects.  The
selections use identity tests: `is not ''` agrees with inequality to the
empty string on CPython (the empty string is interned), and is true for
every non-string value; `is 1` agrees with equality to the integer 1 (small
integers are cached, and `True is 1` is false). -/
def country_lists : List PyVal → Except PyErr (List PyVal × List PyVal × List PyVal)
  | [] => Except.ok ([], [], [])
  | c :: rest =>
    match pyGetItem c "medical advisory" with
    | Except.error e => Except.error e
    | Except.ok ma =>
      match pyGetItem c "visitor_visa_required" with
      | Except.error e => Except.error e
      | Except.ok vv =>
        match pyGetItem c "transit_visa_required" with
        | Except.error e => Except.error e
        | Except.ok tv =>
          match country_lists rest with
          | Except.error e => Except.error e
          | Except.ok (ms, vs, ts) =>
            Except.ok
              ( (if ma = .str "" then ms else c :: ms),
                (if vv = .int 1 then c :: vs else vs),
                (if tv = .int 1 then c :: ts else ts) )

/-- Line 58 calls `traveler_records.len()`.  Python lists have no method
named `len` (the builtin is `len(...)`), so the attribute lookup raises
AttributeError on every input. -/
def list_len_method (_ : List PyVal) : Except PyErr Nat :=
  Except.error PyErr.attributeError

/-- Lines 75-76 and 80-81: a required visa leads to Reject when the record
has no `visa` key or the visa date is not valid; when the visa is present
and valid, the branch appends nothing (`Option.none`: no decision for this
record). -/
def visa_check (record : PyVal) : Except PyErr (Option String) :=
  match record with
  | .dict d =>
    match d.lookup "visa" with
    | Option.none => Except.ok (some "Reject")
    | some v =>
      match valid_visa_date v with
      | Except.error e => Except.error e
      | Except.ok vb =>
          if vb then Except.ok Option.none else Except.ok (some "Reject")
  | _ => Except.error PyErr.typeError

/-- One iteration of the loop of lines 63-89: the decision appended for one
record, `Option.none` when the iteration appends nothing.  Field accesses
happen in source order, so a record without a `home`/`from` object raises
KeyError before any check runs. -/
def process_record (record : PyVal)
    (medical_advisories visitor_visas transit_visas watchlist : List PyVal) :
    Except PyErr (Option String) :=
  match pyGetItem record "home" with
  | Except.error e => Except.error e
  | Except.ok home =>
  match pyGetItem home "country" with
  | Except.error e => Except.error e
  | Except.ok hc =>
  match pyGetItem record "from" with
  | Except.error e => Except.error e
  | Except.ok fr =>
  match pyGetItem fr "country" with
  | Except.error e => Except.error e
  | Except.ok fc =>
  if has_medical_advisory hc fc medical_advisories then Except.ok (some "Quarantine")
  else
  match complete_record record with
  | Except.error e => Except.error e
  | Except.ok cr =>
  if cr = false then Except.ok (some "Reject")
  else
  match pyGetItem record "entry_reason" with
  | Except.error e => Except.error e
  | Except.ok er =>
  match visitor_visa_required er hc visitor_visas with
  | Except.error e => Except.error e
  | Except.ok vv =>
  if vv then visa_check record
  else if transit_visa_required er fc transit_visas then visa_check record
  else
  match pyGetItem record "first_name" with
  | Except.error e => Except.error e
  | Except.ok fn =>
  match pyGetItem record "last_name" with
  | Except.error e => Except.error e
  | Except.ok ln =>
  match pyGetItem record "passport" with
  | Except.error e => Except.error e
  | Except.ok pp =>
  match on_watchlist fn ln pp watchlist with
  | Except.error e => Except.error e
  | Except.ok (some true) => Except.ok (some "Secondary")
  | Except.ok _ => Except.ok (some "Accept")

/-- The loop of lines 63-91 over the whole batch, collecting the appended
decisions in order. -/
def decide_loop (medical_advisories visitor_visas transit_visas watchlist : List PyVal) :
    List PyVal → Except PyErr (List String)
  | [] => Except.ok []
  | r :: rs =>
    match process_record r medical_advisories visitor_visas transit_visas watchlist with
    | Except.error e => Except.error e
    | Except.ok dec =>
      match decide_loop medical_advisories visitor_visas transit_visas watchlist rs with
      | Except.error e => Except.error e
      | Except.ok rest =>
          Except.ok (match dec with | some s => s :: rest | Option.none => rest)

namespace papers

/-- Embeds `decide` (papers.py lines 19-91) after the `json.loads` boundary:
index the country table (lines 41-54), then line 58 calls
`traveler_records.len()` — which raises AttributeError — and only then
would the per-record loop run.  (Namespaced after the source module because
the bare name collides with core's `Decidable.decide`.) -/
def decide (traveler_records watchlist all_countries : List PyVal) :
    Except PyErr (List String) :=
  match country_lists all_countries with
  | Except.error e => Except.error e
  | Except.ok (ms, vs, ts) =>
    match list_len_method traveler_records with
    | Except.error e => Except.error e
    | Except.ok n =>
        if n = 0 then Except.ok []
        else decide_loop ms vs ts watchlist traveler_records

end papers

/-! ### Concrete data used by the counterexamples and witnesses -/

/-- Fields of a country under medical advisory that requires both visa
kinds. -/
def gorFields : PyFields := fieldsOf
  [ ("code", PyVal.str "GOR"), ("medical advisory", PyVal.str "measles"),
    ("visitor_visa_required", PyVal.int 1), ("transit_visa_required", PyVal.int 1) ]

/-- A country entry as `decide` parses it from the countries file. -/
def gor : PyVal := PyVal.dict gorFields

/-- First watchlist entry (matches nothing below). -/
def entryA : PyVal := PyVal.dict (fieldsOf
  [ ("first_name", PyVal.str "Alice"), ("last_name", PyVal.str "Ames"),
    ("passport", PyVal.str "AAAAA-AAAAA-AAAAA-AAAAA-AAAAA") ])

/-- Second watchlist entry. -/
def entryB : PyVal := PyVal.dict (fieldsOf
  [ ("first_name", PyVal.str "Bob"), ("last_name", PyVal.str "Burns"),
    ("passport", PyVal.str "BBBBB-BBBBB-BBBBB-BBBBB-BBBBB") ])

/-- The complete record from `test_papers.py` with its birth date replaced by
the boolean `true` (a wrong-typed field, as in the repository's own test
`valid_visa_date({'date': True})`). -/
def record_bool_birth : PyVal := PyVal.dict (fieldsOf
  [ ("first_name", PyVal.str "First!"), ("last_name", PyVal.str "Last!"),
    ("birth_date", PyVal.bool true),
    ("passport", PyVal.str "3Z416-ZM6NW-ZO5WV-EVHYS-VPGAZ"),
    ("home", PyVal.dict (fieldsOf [ ("city", PyVal.str "Urella"),
      ("region", PyVal.str "Parsol"), ("country", PyVal.str "GOR") ])),
    ("from", PyVal.dict (fieldsOf [ ("city", PyVal.str "Urella"),
      ("region", PyVal.str "Parsol"), ("country", PyVal.str "GOR") ])),
    ("entry_reason", PyVal.str "visit") ])

/-! ### Helper lemmas -/

/-- Membership in the medical-advisory list produced by the indexer: exactly
the input country entries whose `medical advisory` value is not the empty
string (the entries themselves, not their codes). -/
theorem mem_medical_advisories_iff :
    ∀ (cs ms vs ts : List PyVal), country_lists cs = Except.ok (ms, vs, ts) →
      ∀ x : PyVal, x ∈ ms ↔ x ∈ cs ∧
        ∃ mv, pyGetItem x "medical advisory" = Except.ok mv ∧ mv ≠ PyVal.str "" := by
  intro cs
  induction cs with
  | nil =>
      intro ms vs ts hok x
      simp only [country_lists, Except.ok.injEq, Prod.mk.injEq] at hok
      obtain ⟨h1, h2, h3⟩ := hok
      subst h1
      simp
  | cons c rest ih =>
      intro ms vs ts hok x
      simp only [country_lists] at hok
      cases hma : pyGetItem c "medical advisory" with
      | error e => rw [hma] at hok; exact absurd hok (by simp)
      | ok ma =>
        rw [hma] at hok
        cases hvv : pyGetItem c "visitor_visa_required" with
        | error e => rw [hvv] at hok; exact absurd hok (by simp)
        | ok vv =>
          rw [hvv] at hok
          cases htv : pyGetItem c "transit_visa_required" with
          | error e => rw [htv] at hok; exact absurd hok (by simp)
          | ok tv =>
            rw [htv] at hok
            cases hrest : country_lists rest with
            | error e => rw [hrest] at hok; exact absurd hok (by simp)
            | ok triple =>
              obtain ⟨ms1, vs1, ts1⟩ := triple
              rw [hrest] at hok
              simp only [Except.ok.injEq, Prod.mk.injEq] at hok
              obtain ⟨hms, hvs, hts⟩ := hok
              subst hms
              have hiff := ih ms1 vs1 ts1 (by rw [hrest]) x
              by_cases hempty : ma = PyVal.str ""
              · rw [if_pos hempty]
                rw [hiff]
                constructor
                · rintro ⟨hx, hcond⟩
                  exact ⟨List.mem_cons_of_mem c hx, hcond⟩
                · rintro ⟨hx, mv, hmv, hne⟩
                  rcases List.mem_cons.mp hx with rfl | hx
                  · rw [hma] at hmv
                    injection hmv with hmv
                    exact absurd (hmv ▸ hempty) hne
                  · exact ⟨hx, mv, hmv, hne⟩
              · rw [if_neg hempty]
                constructor
                · intro hx
                  rcases List.mem_cons.mp hx with rfl | hx
                  · exact ⟨List.mem_cons_self x rest, ma, hma, hempty⟩
                  · obtain ⟨hx1, hcond⟩ := hiff.mp hx
                    exact ⟨List.mem_cons_of_mem c hx1, hcond⟩
                · rintro ⟨hx, mv, hmv, hne⟩
                  rcases List.mem_cons.mp hx with rfl | hx
                  · exact List.mem_cons_self x ms1
                  · exact List.mem_cons_of_mem c (hiff.mpr ⟨hx, mv, hmv, hne⟩)

/-- A regex group `\w{5}`: exactly five word characters. -/
def WordGroup (g : List Char) : Prop :=
  g.length = 5 ∧ ∀ c ∈ g, pyWordChar c = true

/-- What the compiled pattern `^\w{5}-\w{5}-\w{5}-\w{5}-\w{5}$` accepts under
Python semantics: five word-character groups separated by single hyphens,
optionally followed by one trailing newline. -/
def PassportShape (l : List Char) : Prop :=
  ∃ g1 g2 g3 g4 g5 t, WordGroup g1 ∧ WordGroup g2 ∧ WordGroup g3 ∧ WordGroup g4 ∧
    WordGroup g5 ∧ (t = [] ∨ t = [ '\n' ]) ∧
    l = g1 ++ '-' :: (g2 ++ '-' :: (g3 ++ '-' :: (g4 ++ '-' :: (g5 ++ t))))

theorem takeWord5_eq_some (l r : List Char) :
    takeWord5 l = some r ↔ ∃ g, WordGroup g ∧ l = g ++ r := by
  unfold takeWord5
  rw [ite_eq_iff]
  constructor
  · rintro (⟨⟨hlen, hall⟩, heq⟩ | ⟨_, heq⟩)
    · injection heq with heq
      subst heq
      refine ⟨l.take 5, ⟨?_, ?_⟩, (List.take_append_drop 5 l).symm⟩
      · rw [List.length_take]; omega
      · exact fun c hc => List.all_eq_true.mp hall c hc
    · cases heq
  · rintro ⟨g, ⟨hlen, hall⟩, rfl⟩
    left
    have htake : (g ++ r).take 5 = g := List.take_left' hlen
    have hdrop : (g ++ r).drop 5 = r := List.drop_left' hlen
    refine ⟨⟨?_, ?_⟩, ?_⟩
    · rw [List.length_append]; omega
    · rw [htake]
      exact List.all_eq_true.mpr hall
    · rw [hdrop]

theorem takeDashWord5_eq_some (l r : List Char) :
    takeDashWord5 l = some r ↔ ∃ g, WordGroup g ∧ l = '-' :: (g ++ r) := by
  cases l with
  | nil => simp [takeDashWord5]
  | cons c rest =>
    by_cases hc : c = '-'
    · subst hc
      rw [takeDashWord5, if_pos rfl, takeWord5_eq_some]
      constructor
      · rintro ⟨g, hg, rfl⟩
        exact ⟨g, hg, rfl⟩
      · rintro ⟨g, hg, heq⟩
        injection heq with h1 h2
        exact ⟨g, hg, h2⟩
    · rw [takeDashWord5, if_neg hc]
      simp [hc]

/-- Subset direction of `mem_medical_advisories_iff`, in the form the
medical-advisory claims use. -/
theorem mem_of_mem_medical_advisories (cs ms vs ts : List PyVal)
    (hok : country_lists cs = Except.ok (ms, vs, ts)) :
    ∀ x ∈ ms, x ∈ cs :=
  fun x hx => ((mem_medical_advisories_iff cs ms vs ts hok x).mp hx).1

/-- Python `==` between a string and a dict is always false. -/
theorem pyEq_str_dict (s : String) (d : PyFields) :
    pyEq (PyVal.str s) (PyVal.dict d) = false := by
  simp [pyEq, pyNum]

/-! ### Claims -/

/-- C9 counterexample: the passport validator accepts a string whose first
group contains an underscore, which is not an alphanumeric character, so
"five groups of five alphanumeric characters, anything else invalid" is
false of the code (`\w` also matches the underscore). -/
theorem valid_passport_format_accepts_underscore :
    valid_passport_format "AB_CD-EFGHI-JKLMN-OPQRS-TUVWX" = true ∧
    '_' ∈ "AB_CD-EFGHI-JKLMN-OPQRS-TUVWX".data ∧
    Char.isAlphanum '_' = false := by
  refine ⟨by decide, by decide, by decide⟩

/-- C9 (amended): for every string, the passport validator returns true iff
the string is exactly five groups of five word characters (letters, digits,
or underscore) separated by hyphens, optionally followed by one trailing
newline (Python `$` semantics); no case normalization is applied. -/
theorem valid_passport_format_iff (s : String) :
    valid_passport_format s = true ↔ PassportShape s.data := by
  constructor
  · intro h
    unfold valid_passport_format passport_regex at h
    cases h1 : takeWord5 s.data with
    | none => simp only [h1] at h; exact Bool.noConfusion h
    | some r1 =>
    simp only [h1] at h
    cases h2 : takeDashWord5 r1 with
    | none => simp only [h2] at h; exact Bool.noConfusion h
    | some r2 =>
    simp only [h2] at h
    cases h3 : takeDashWord5 r2 with
    | none => simp only [h3] at h; exact Bool.noConfusion h
    | some r3 =>
    simp only [h3] at h
    cases h4 : takeDashWord5 r3 with
    | none => simp only [h4] at h; exact Bool.noConfusion h
    | some r4 =>
    simp only [h4] at h
    cases h5 : takeDashWord5 r4 with
    | none => simp only [h5] at h; exact Bool.noConfusion h
    | some r5 =>
    simp only [h5] at h
    have hend : dollarEnd r5 = true := h
    obtain ⟨g1, hg1, e1⟩ := (takeWord5_eq_some _ _).mp h1
    obtain ⟨g2, hg2, e2⟩ := (takeDashWord5_eq_some _ _).mp h2
    obtain ⟨g3, hg3, e3⟩ := (takeDashWord5_eq_some _ _).mp h3
    obtain ⟨g4, hg4, e4⟩ := (takeDashWord5_eq_some _ _).mp h4
    obtain ⟨g5, hg5, e5⟩ := (takeDashWord5_eq_some _ _).mp h5
    refine ⟨g1, g2, g3, g4, g5, r5, hg1, hg2, hg3, hg4, hg5, ?_, ?_⟩
    · exact of_decide_eq_true hend
    · rw [e1, e2, e3, e4, e5]
  · rintro ⟨g1, g2, g3, g4, g5, t, hg1, hg2, hg3, hg4, hg5, ht, heq⟩
    have s1 : takeWord5 (g1 ++ '-' :: (g2 ++ '-' :: (g3 ++ '-' :: (g4 ++ '-' :: (g5 ++ t)))))
        = some ('-' :: (g2 ++ '-' :: (g3 ++ '-' :: (g4 ++ '-' :: (g5 ++ t))))) :=
      (takeWord5_eq_some _ _).mpr ⟨g1, hg1, rfl⟩
    have s2 : takeDashWord5 ('-' :: (g2 ++ '-' :: (g3 ++ '-' :: (g4 ++ '-' :: (g5 ++ t)))))
        = some ('-' :: (g3 ++ '-' :: (g4 ++ '-' :: (g5 ++ t)))) :=
      (takeDashWord5_eq_some _ _).mpr ⟨g2, hg2, rfl⟩
    have s3 : takeDashWord5 ('-' :: (g3 ++ '-' :: (g4 ++ '-' :: (g5 ++ t))))
        = some ('-' :: (g4 ++ '-' :: (g5 ++ t))) :=
      (takeDashWord5_eq_some _ _).mpr ⟨g3, hg3, rfl⟩
    have s4 : takeDashWord5 ('-' :: (g4 ++ '-' :: (g5 ++ t)))
        = some ('-' :: (g5 ++ t)) :=
      (takeDashWord5_eq_some _ _).mpr ⟨g4, hg4, rfl⟩
    have s5 : takeDashWord5 ('-' :: (g5 ++ t)) = some t :=
      (takeDashWord5_eq_some _ _).mpr ⟨g5, hg5, rfl⟩
    have s6 : dollarEnd t = true := decide_eq_true ht
    unfold valid_passport_format passport_regex
    rw [heq]
    simp only [s1, s2, s3, s4, s5]
    exact s6

/-- C1: `decide` never returns a decision list at all — for every parsed
batch, watchlist and country table it raises: line 58 calls
`traveler_records.len()`, and Python lists have no method named `len`, so
an AttributeError escapes before the loop runs (when the country table
itself is malformed, the indexer raises even earlier).  The claimed
one-decision-per-record invariant therefore fails on every input; decide's
own docstring ("one for each record") promises otherwise. -/
theorem decide_never_returns (r w c : List PyVal) :
    ∃ e, papers.decide r w c = Except.error e := by
  unfold papers.decide
  cases hc : country_lists c with
  | error e => exact ⟨e, rfl⟩
  | ok triple =>
      obtain ⟨ms, vs, ts⟩ := triple
      exact ⟨PyErr.attributeError, rfl⟩

/-- C2: the Quarantine branch is unreachable.  The indexer stores whole
country dicts in `medical_advisories`, while `decide` passes the record's
home and origin country-code strings, and a Python `==` between a string
and a dict is always false — so `has_medical_advisory` never returns true
on any batch `decide` processes, although the repository's own
`test_quarantine` expects a "Quarantine" decision. -/
theorem quarantine_branch_unreachable (h f : String) (cs ms vs ts : List PyVal)
    (hok : country_lists cs = Except.ok (ms, vs, ts))
    (hdicts : ∀ c ∈ cs, ∃ d, c = PyVal.dict d) :
    has_medical_advisory (PyVal.str h) (PyVal.str f) ms = false := by
  have hsub := mem_of_mem_medical_advisories cs ms vs ts hok
  simp only [has_medical_advisory, List.any_eq_false]
  intro x hx
  obtain ⟨d, rfl⟩ := hdicts x (hsub x hx)
  simp [pyEq_str_dict]

/-- C2 witness: concrete country table with a non-empty medical advisory. -/
theorem quarantine_branch_unreachable_witness :
    has_medical_advisory (PyVal.str "GOR") (PyVal.str "GOR") [ gor ] = false :=
  quarantine_branch_unreachable "GOR" "GOR" [ gor ] [ gor ] [ gor ] [ gor ]
    (by decide)
    (fun c hc => ⟨gorFields, by rw [List.mem_singleton.mp hc]; rfl⟩)

/-- C3: the watchlist matcher stops at the first entry.  Here the second
watchlist entry matches the query on first name, last name and passport
(second conjunct), yet `on_watchlist` returns `False` because the first
entry does not match — every path through the loop body returns, so no
later entry is ever examined, contradicting the function's own docstring. -/
theorem on_watchlist_ignores_later_entries :
    watchlist_name_match (PyVal.str "Bob") (PyVal.str "Burns") entryB = Except.ok true ∧
    pyGetItem entryB "passport"
      = Except.ok (PyVal.str "BBBBB-BBBBB-BBBBB-BBBBB-BBBBB") ∧
    on_watchlist (PyVal.str "Bob") (PyVal.str "Burns")
      (PyVal.str "BBBBB-BBBBB-BBBBB-BBBBB-BBBBB") [ entryA, entryB ]
      = Except.ok (some false) := by
  refine ⟨by decide, by decide, by decide⟩

/-- C4: on a well-formed issue date the visa validity check never evaluates
the 730-day window: line 129 calls `datetime.date` on three string slices,
which raises TypeError, so `valid_visa_date` raises instead of returning
the boolean the claim (and the repository's own `test_valid_visa_date`,
which expects `True` for 2014-10-31) describes. -/
theorem valid_visa_date_raises_on_wellformed_date :
    strptime_valid "2014-10-31" = true ∧
    valid_visa_date (PyVal.dict (fieldsOf [ ("date", PyVal.str "2014-10-31") ]))
      = Except.error PyErr.typeError := by
  refine ⟨by decide, by decide⟩

/-- C5: the transit half of the requirement check never fires.  Line 235
compares the origin country-code string against the whole country dict
stored in the transit list (its visitor sibling compares against the
`code` field), so `transit_visa_required` is false for every reason and
every code string whenever the list holds country dicts, as it does in
`decide`. -/
theorem transit_visa_requirement_never_detected (reason : PyVal) (h : String)
    (lst : List PyVal) (hdicts : ∀ c ∈ lst, ∃ d, c = PyVal.dict d) :
    transit_visa_required reason (PyVal.str h) lst = false := by
  unfold transit_visa_required
  split
  · simp only [List.any_eq_false]
    intro x hx
    obtain ⟨d, rfl⟩ := hdicts x hx
    simp [pyEq_str_dict]
  · rfl

/-- C5 witness: a country that requires a transit visa, with a matching
origin code, is still not detected. -/
theorem transit_visa_requirement_never_detected_witness :
    transit_visa_required (PyVal.str "transit") (PyVal.str "GOR") [ gor ] = false :=
  transit_visa_requirement_never_detected (PyVal.str "transit") "GOR" [ gor ]
    (fun c hc => ⟨gorFields, by rw [List.mem_singleton.mp hc]; rfl⟩)

/-- C6: the record validator can raise.  On the repository's own complete
test record with the birth date replaced by a boolean, `complete_record`
reaches `valid_date_format`, whose `strptime` call raises TypeError for a
non-string — the `except ValueError` clause does not catch it — so the
validator does not return a boolean for every record value. -/
theorem complete_record_raises_on_nonstring_field :
    complete_record record_bool_birth = Except.error PyErr.typeError := by
  decide

/-- C7: `decide` on an empty batch raises AttributeError instead of
returning the empty list: line 58 invokes `traveler_records.len()` on a
Python list, which has no such method, although the comment on line 56
states the intent to return the empty decision list. -/
theorem decide_empty_batch_raises :
    papers.decide [] [] [] = Except.error PyErr.attributeError := rfl

/-- C8 counterexample: the indexer's medical-advisory list holds the entire
country record, not its code — for a one-country table under advisory, the
produced list contains the country dict and does not contain the code
string "GOR", so the claimed "sets of country codes" is false of the
code. -/
theorem country_lists_hold_records_not_codes :
    country_lists [ gor ] = Except.ok ([ gor ], [ gor ], [ gor ]) ∧
    pyGetItem gor "medical advisory" = Except.ok (PyVal.str "measles") ∧
    PyVal.str "GOR" ∉ [ gor ] := by
  refine ⟨by decide, by decide, by decide⟩

/-- C8 (amended): the indexer produces three lists of the full country
records; a country record belongs to the medical-advisory list iff its
`medical advisory` value is not (identical to) the empty string. -/
theorem country_lists_medical_membership (cs ms vs ts : List PyVal)
    (hok : country_lists cs = Except.ok (ms, vs, ts)) (x : PyVal) :
    x ∈ ms ↔ x ∈ cs ∧
      ∃ mv, pyGetItem x "medical advisory" = Except.ok mv ∧ mv ≠ PyVal.str "" :=
  mem_medical_advisories_iff cs ms vs ts hok x

/-- C8 witness: the amended membership law at the concrete one-country
table. -/
theorem country_lists_medical_membership_witness :
    gor ∈ [ gor ] ↔ gor ∈ ([ gor ] : List PyVal) ∧
      ∃ mv, pyGetItem gor "medical advisory" = Except.ok mv ∧ mv ≠ PyVal.str "" :=
  country_lists_medical_membership [ gor ] [ gor ] [ gor ] [ gor ] (by decide) gor

/-- C10: for the empty watchlist the matcher falls off the end of the
function and returns Python `None` — not the boolean `False` — for every
first name, last name and passport value. -/
theorem on_watchlist_empty_is_none (first_name last_name passport : PyVal) :
    on_watchlist first_name last_name passport [] = Except.ok Option.none := rfl
